import Mathlib

/-!
Verification of the credit-scoring engine of the Stories-and-Stitches
book-intake application (`assessBookConditionFlow` and its helper
functions in `src/ai/flows/assess-book-condition.ts`).

The engine is a pure, deterministic computation: it consumes the visual
assessment record produced by the AI provider together with contextual
input flags, and produces component scores, a final credit award with a
per-component breakdown, and justification text.  Numbers are modelled
as exact rationals (ℚ); `Math.round` is modelled as `fun q => ⌊q + 1/2⌋`,
which agrees with the JavaScript semantics on all inputs.
-/

namespace StoriesStitches

/-- Annotation severity reported by the visual-assessment provider
(`annotationSeverity: 'none' | 'minor' | 'heavy'`). -/
inductive AnnSeverity where
  | sevNone
  | sevMinor
  | sevHeavy
deriving DecidableEq, Repr

/-- The visual-assessment record produced by the AI provider (the fields of
`AssessBookConditionOutputSchema` that the provider fills in; the calculated
score fields of that schema are overwritten by the flow on every path, so
they are omitted here). -/
structure VisualAssessment where
  coverCondition : ℚ
  spineCondition : ℚ
  pagesCondition : ℚ
  bindingIntegrity : ℚ
  cleanliness : ℚ
  hasAnnotations : Bool
  annotationSeverity : AnnSeverity
  isComplete : Bool
  shouldReject : Bool
  justification : String
deriving DecidableEq, Repr

/-- The contextual part of `AssessBookConditionInputSchema`: optional
title/author plus the four bonus flags. -/
structure ContextualFactors where
  bookTitle : Option String
  bookAuthor : Option String
  isFirstTimeDonor : Bool
  isThemeEvent : Bool
  isNewBook : Bool
  hasCraftMatch : Bool
deriving DecidableEq, Repr

/-- The `creditBreakdown` object of the output schema. -/
structure CreditBreakdown where
  conditionCredits : ℚ
  demandCredits : ℚ
  rarityCredits : ℚ
  bonusCredits : ℚ
deriving DecidableEq, Repr

/-- The record returned by `assessBookConditionFlow`
(`AssessBookConditionOutputSchema`): the echoed visual fields plus the
calculated scores, final credits, breakdown and justification. -/
structure CreditAssessment where
  coverCondition : ℚ
  spineCondition : ℚ
  pagesCondition : ℚ
  bindingIntegrity : ℚ
  cleanliness : ℚ
  hasAnnotations : Bool
  annotationSeverity : AnnSeverity
  isComplete : Bool
  shouldReject : Bool
  conditionScore : ℚ
  demandScore : ℚ
  rarityScore : ℚ
  bonusFactors : ℚ
  finalCredits : ℚ
  creditBreakdown : CreditBreakdown
  justification : String
deriving DecidableEq, Repr

/-! ### String helpers

JavaScript `String.prototype.toLowerCase` (on the ASCII titles involved)
and `String.prototype.includes`, written as structural recursions on
`List Char` so that concrete evaluations go through the kernel. -/

/-- ASCII lower-casing of one character, as performed by
`toLowerCase` on the characters appearing in book titles. -/
def lowerChar (c : Char) : Char :=
  if 'A' ≤ c ∧ c ≤ 'Z' then Char.ofNat (c.toNat + 32) else c

/-- `toLowerCase` on a whole string. -/
def lowerString (s : String) : String :=
  ⟨s.data.map lowerChar⟩

/-- Does `p` occur at the head of `l`? -/
def charsLeadWith : List Char → List Char → Bool
  | [], _ => true
  | _ :: _, [] => false
  | p :: ps, c :: cs => (p == c) && charsLeadWith ps cs

/-- Does `pat` occur somewhere in `l`? -/
def charsContain (pat : List Char) : List Char → Bool
  | [] => pat.isEmpty
  | c :: cs => charsLeadWith pat (c :: cs) || charsContain pat cs

/-- JavaScript `s.includes(pat)`. -/
def strIncludes (s pat : String) : Bool :=
  charsContain pat.data s.data

/-! ### The scoring functions (translated from the source) -/

/-- The input record of `calculateConditionScore` — the seven visual
fields that the flow copies out of the provider's record. -/
structure ConditionInput where
  coverCondition : ℚ
  spineCondition : ℚ
  pagesCondition : ℚ
  bindingIntegrity : ℚ
  cleanliness : ℚ
  hasAnnotations : Bool
  annotationSeverity : AnnSeverity
deriving DecidableEq, Repr

/-- `calculateConditionScore`: thresholds each visual feature into a
factor, adds them around a base of 3 together with a completeness bonus
of 1, and clamps into [0,5]. -/
def calculateConditionScore (a : ConditionInput) : ℚ :=
  let coverScore : ℚ :=
    if a.coverCondition ≥ 9 then 1 else if a.coverCondition ≥ 7 then 0 else -1
  let spineScore : ℚ :=
    if a.spineCondition ≥ 9 then 1 else if a.spineCondition ≥ 7 then 0 else -1
  let pageScore : ℚ := if a.pagesCondition ≥ 8 then 1 else -1
  let annScore : ℚ :=
    match a.annotationSeverity with
    | .sevNone => 0
    | .sevMinor => -0.5
    | .sevHeavy => -1
  let completenessScore : ℚ := 1
  let baseScore :=
    max 0 (3 + coverScore + spineScore + pageScore + annScore + completenessScore)
  min 5 (max 0 baseScore)

/-- The curated list of well-known titles (`popularBooks` in the source,
already lower-case there). -/
def popularBooks : List String :=
  ["the alchemist", "harry potter", "the great gatsby", "to kill a mockingbird",
   "pride and prejudice", "the catcher in the rye", "1984", "the lord of the rings"]

/-- The trending-genre keyword list (`trendingGenres` in the source). -/
def trendingGenres : List String :=
  ["fantasy", "mystery", "thriller", "romance", "self-help"]

/-- `calculateDemandScore`: 1 for an absent or empty title (JavaScript
`!bookTitle` is true for `undefined` and for the empty string), 3 when the
lower-cased title contains a curated well-known title, 2 when it contains
a trending-genre keyword, 1 otherwise. -/
def calculateDemandScore (bookTitle : Option String) (_bookAuthor : Option String) : ℚ :=
  match bookTitle with
  | none => 1
  | some t =>
    if t.data.isEmpty then 1
    else
      let title := lowerString t
      if popularBooks.any (fun book => strIncludes title book) then 3
      else if trendingGenres.any (fun genre => strIncludes title genre) then 2
      else 1

/-- `calculateRarityScore`: the current stub always returns 0. -/
def calculateRarityScore (_bookTitle : Option String) (_bookAuthor : Option String) : ℚ :=
  0

/-- The input record of `calculateBonusFactors`. -/
structure BonusInput where
  isFirstTimeDonor : Bool
  isThemeEvent : Bool
  isNewBook : Bool
  hasCraftMatch : Bool
deriving DecidableEq, Repr

/-- `calculateBonusFactors`: additive flag contributions, capped at 5. -/
def calculateBonusFactors (input : BonusInput) : ℚ :=
  let bonus : ℚ :=
    (if input.isFirstTimeDonor then 1 else 0) +
    (if input.isThemeEvent then 0.5 else 0) +
    (if input.isNewBook then 2 else 0) +
    (if input.hasCraftMatch then 1 else 0)
  min 5 bonus

/-- JavaScript `Math.round`: round half toward positive infinity. -/
def jsRound (q : ℚ) : ℤ :=
  ⌊q + 1/2⌋

/-- `Math.round(x * 100) / 100`: round to two decimal places. -/
def round2 (q : ℚ) : ℚ :=
  (jsRound (q * 100) : ℚ) / 100

/-- The record returned by `calculateFinalCredits`. -/
structure FinalCreditsResult where
  finalCredits : ℚ
  breakdown : CreditBreakdown
deriving DecidableEq, Repr

/-- `calculateFinalCredits`: the weighted aggregation
`condition × 0.5 + demand × 0.3 + rarity × 0.1 + bonus`, with the total
rounded from the unrounded sum and each breakdown component rounded
independently. -/
def calculateFinalCredits (conditionScore demandScore rarityScore bonusFactors : ℚ) :
    FinalCreditsResult :=
  let conditionCredits := conditionScore * 0.5
  let demandCredits := demandScore * 0.3
  let rarityCredits := rarityScore * 0.1
  let bonusCredits := bonusFactors
  let finalCredits := conditionCredits + demandCredits + rarityCredits + bonusCredits
  { finalCredits := round2 finalCredits
    breakdown :=
      { conditionCredits := round2 conditionCredits
        demandCredits := round2 demandCredits
        rarityCredits := round2 rarityCredits
        bonusCredits := round2 bonusCredits } }

/-- Decimal rendering of the rational credit values interpolated into the
justification text (all of them are non-negative multiples of 1/100),
matching the JavaScript number-to-string conversion on those values. -/
def ratToDecimalString (q : ℚ) : String :=
  let cents := (jsRound (q * 100)).natAbs
  let whole := cents / 100
  let frac := cents % 100
  if frac == 0 then toString whole
  else if frac % 10 == 0 then toString whole ++ "." ++ toString (frac / 10)
  else if frac < 10 then toString whole ++ ".0" ++ toString frac
  else toString whole ++ "." ++ toString frac

/-- The literal suffix appended to the justification on the rejection path. -/
def rejectionSuffix : String :=
  " - Book rejected due to severe damage or missing pages."

/-- The `CREDIT BREAKDOWN` block appended to the justification on the
scoring path. -/
def breakdownBlock (conditionScore demandScore rarityScore bonusFactors finalCredits : ℚ)
    (breakdown : CreditBreakdown) : String :=
  "\n\nCREDIT BREAKDOWN:\n" ++
  "• Condition Score: " ++ ratToDecimalString conditionScore ++ "/5 (" ++
    ratToDecimalString breakdown.conditionCredits ++ " credits)\n" ++
  "• Demand Score: " ++ ratToDecimalString demandScore ++ "/3 (" ++
    ratToDecimalString breakdown.demandCredits ++ " credits)\n" ++
  "• Rarity Score: " ++ ratToDecimalString rarityScore ++ "/1 (" ++
    ratToDecimalString breakdown.rarityCredits ++ " credits)\n" ++
  "• Bonus Factors: " ++ ratToDecimalString bonusFactors ++ " (" ++
    ratToDecimalString breakdown.bonusCredits ++ " credits)\n" ++
  "• TOTAL: " ++ ratToDecimalString finalCredits ++ " credits"

/-- `assessBookConditionFlow`, after the provider call: given the
provider's visual assessment `output` and the contextual input, either
short-circuit on rejection or run the deterministic scoring pipeline. -/
def assessBookConditionFlow (output : VisualAssessment) (input : ContextualFactors) :
    CreditAssessment :=
  if output.shouldReject || !output.isComplete then
    { coverCondition := output.coverCondition
      spineCondition := output.spineCondition
      pagesCondition := output.pagesCondition
      bindingIntegrity := output.bindingIntegrity
      cleanliness := output.cleanliness
      hasAnnotations := output.hasAnnotations
      annotationSeverity := output.annotationSeverity
      isComplete := output.isComplete
      shouldReject := output.shouldReject
      conditionScore := 0
      demandScore := 0
      rarityScore := 0
      bonusFactors := 0
      finalCredits := 0
      creditBreakdown :=
        { conditionCredits := 0, demandCredits := 0, rarityCredits := 0, bonusCredits := 0 }
      justification := output.justification ++ rejectionSuffix }
  else
    let conditionScore := calculateConditionScore
      { coverCondition := output.coverCondition
        spineCondition := output.spineCondition
        pagesCondition := output.pagesCondition
        bindingIntegrity := output.bindingIntegrity
        cleanliness := output.cleanliness
        hasAnnotations := output.hasAnnotations
        annotationSeverity := output.annotationSeverity }
    let demandScore := calculateDemandScore input.bookTitle input.bookAuthor
    let rarityScore := calculateRarityScore input.bookTitle input.bookAuthor
    let bonusFactors := calculateBonusFactors
      { isFirstTimeDonor := input.isFirstTimeDonor
        isThemeEvent := input.isThemeEvent
        isNewBook := input.isNewBook
        hasCraftMatch := input.hasCraftMatch }
    let result := calculateFinalCredits conditionScore demandScore rarityScore bonusFactors
    { coverCondition := output.coverCondition
      spineCondition := output.spineCondition
      pagesCondition := output.pagesCondition
      bindingIntegrity := output.bindingIntegrity
      cleanliness := output.cleanliness
      hasAnnotations := output.hasAnnotations
      annotationSeverity := output.annotationSeverity
      isComplete := output.isComplete
      shouldReject := output.shouldReject
      conditionScore := conditionScore
      demandScore := demandScore
      rarityScore := rarityScore
      bonusFactors := bonusFactors
      finalCredits := result.finalCredits
      creditBreakdown := result.breakdown
      justification := output.justification ++
        breakdownBlock conditionScore demandScore rarityScore bonusFactors
          result.finalCredits result.breakdown }

/-! ### Shared helper lemmas and sample inputs -/

/-- The condition score is bounded below by 0. -/
lemma conditionScore_nonneg (a : ConditionInput) : 0 ≤ calculateConditionScore a := by
  unfold calculateConditionScore
  exact le_min (by norm_num) (le_max_left _ _)

/-- The condition score is bounded above by 5. -/
lemma conditionScore_le_five (a : ConditionInput) : calculateConditionScore a ≤ 5 := by
  unfold calculateConditionScore
  exact min_le_left _ _

/-- The bonus total is non-negative. -/
lemma bonusFactors_nonneg (i : BonusInput) : 0 ≤ calculateBonusFactors i := by
  unfold calculateBonusFactors
  refine le_min (by norm_num) ?_
  split_ifs <;> norm_num

/-- The demand score is at least 1 on every input. -/
lemma demandScore_ge_one (t a : Option String) : 1 ≤ calculateDemandScore t a := by
  rcases t with _ | s
  · norm_num [calculateDemandScore]
  · simp only [calculateDemandScore]
    split_ifs <;> norm_num

/-- `round2` is monotone. -/
lemma round2_mono {a b : ℚ} (h : a ≤ b) : round2 a ≤ round2 b := by
  unfold round2 jsRound
  have hfloor : ⌊a * 100 + 1 / 2⌋ ≤ ⌊b * 100 + 1 / 2⌋ := Int.floor_mono (by linarith)
  have : ((⌊a * 100 + 1 / 2⌋ : ℤ) : ℚ) ≤ ((⌊b * 100 + 1 / 2⌋ : ℤ) : ℚ) := by
    exact_mod_cast hfloor
  linarith

/-- A rejected sample assessment (`shouldReject = true`). -/
def rejectedSample : VisualAssessment :=
  ⟨3, 3, 3, 3, 3, false, .sevNone, true, true, "Severe damage."⟩

/-- The end-to-end scenario assessment of the specification:
all features excellent, complete, not rejected. -/
def pristineSample : VisualAssessment :=
  ⟨9, 9, 8, 5, 5, false, .sevNone, true, false, "Looks great."⟩

/-- A contextual input with no title, no author and all four flags false. -/
def sampleContext : ContextualFactors :=
  ⟨none, none, false, false, false, false⟩

/-! ### The claims -/

/-- C1: for every visual assessment with `shouldReject = true` or
`isComplete = false`, and every contextual input, the flow bypasses all
scoring and returns a credit assessment whose five score fields and four
breakdown components are all exactly 0, with the rejection suffix appended
to the provider's justification; no contextual factor affects the result. -/
theorem rejection_short_circuit (o : VisualAssessment) (i : ContextualFactors)
    (h : o.shouldReject = true ∨ o.isComplete = false) :
    (assessBookConditionFlow o i).conditionScore = 0 ∧
    (assessBookConditionFlow o i).demandScore = 0 ∧
    (assessBookConditionFlow o i).rarityScore = 0 ∧
    (assessBookConditionFlow o i).bonusFactors = 0 ∧
    (assessBookConditionFlow o i).finalCredits = 0 ∧
    (assessBookConditionFlow o i).creditBreakdown = ⟨0, 0, 0, 0⟩ ∧
    (assessBookConditionFlow o i).justification =
      o.justification ++ " - Book rejected due to severe damage or missing pages." := by
  have hb : (o.shouldReject || !o.isComplete) = true := by
    rcases h with h | h <;> simp [h]
  simp [assessBookConditionFlow, hb, rejectionSuffix]

/-- Witness for C1: the rejection short-circuit evaluated on a concrete
rejected assessment. -/
theorem rejection_short_circuit_witness :
    (assessBookConditionFlow rejectedSample sampleContext).finalCredits = 0 ∧
    (assessBookConditionFlow rejectedSample sampleContext).justification =
      "Severe damage. - Book rejected due to severe damage or missing pages." := by
  have h := rejection_short_circuit rejectedSample sampleContext (Or.inl rfl)
  exact ⟨h.2.2.2.2.1, h.2.2.2.2.2.2⟩

/-- The condition-score factor table read literally from the claim's words:
cover and spine contribute 0 exactly when the feature lies in the closed
interval [7,8] (rather than the source's half-open `≥ 7` branch), with the
same clamp into [0,5]. -/
def conditionScoreSpec (a : ConditionInput) : ℚ :=
  let coverScore : ℚ :=
    if a.coverCondition ≥ 9 then 1
    else if 7 ≤ a.coverCondition ∧ a.coverCondition ≤ 8 then 0 else -1
  let spineScore : ℚ :=
    if a.spineCondition ≥ 9 then 1
    else if 7 ≤ a.spineCondition ∧ a.spineCondition ≤ 8 then 0 else -1
  let pageScore : ℚ := if a.pagesCondition ≥ 8 then 1 else -1
  let annScore : ℚ :=
    match a.annotationSeverity with
    | .sevNone => 0
    | .sevMinor => -0.5
    | .sevHeavy => -1
  min 5 (max 0 (3 + coverScore + spineScore + pageScore + annScore + 1))

/-- Counterexample for C2: at `coverCondition = 8.5` (allowed by the
schema, which requires only a number in [0,10]) the source's `≥ 7` branch
contributes 0, while the claim's literal table (`0 if in [7,8], −1
otherwise`) contributes −1, and the difference survives the clamp. -/
theorem conditionScore_interval_counterexample :
    calculateConditionScore ⟨17/2, 7, 7, 5, 5, true, .sevMinor⟩ = 5/2 ∧
    conditionScoreSpec ⟨17/2, 7, 7, 5, 5, true, .sevMinor⟩ = 3/2 ∧
    calculateConditionScore ⟨17/2, 7, 7, 5, 5, true, .sevMinor⟩ ≠
      conditionScoreSpec ⟨17/2, 7, 7, 5, 5, true, .sevMinor⟩ := by
  norm_num [calculateConditionScore, conditionScoreSpec]

/-- C2 (amended): the condition score equals
`clamp(3 + cover + spine + page + annotation + 1, 0, 5)` where cover is +1
if `coverCondition ≥ 9`, 0 if `7 ≤ coverCondition < 9`, and −1 if
`coverCondition < 7` (same for spine); page is +1 if `pagesCondition ≥ 8`
and −1 otherwise; annotation is 0 / −0.5 / −1 for none / minor / heavy;
consequently the score always lies in [0,5]. -/
theorem conditionScore_clamp_formula (a : ConditionInput) :
    calculateConditionScore a =
      min 5 (max 0
        (3 + (if a.coverCondition ≥ 9 then 1 else if 7 ≤ a.coverCondition then 0 else -1)
           + (if a.spineCondition ≥ 9 then 1 else if 7 ≤ a.spineCondition then 0 else -1)
           + (if a.pagesCondition ≥ 8 then (1 : ℚ) else -1)
           + (match a.annotationSeverity with
              | .sevNone => 0
              | .sevMinor => -0.5
              | .sevHeavy => -1)
           + 1)) ∧
    0 ≤ calculateConditionScore a ∧ calculateConditionScore a ≤ 5 := by
  refine ⟨?_, conditionScore_nonneg a, conditionScore_le_five a⟩
  simp only [calculateConditionScore]
  rw [← max_assoc, max_self]

/-- C3: the aggregator weights the components as
`condition × 0.5 + demand × 0.3 + rariy × 0.1 + bonus`, rounds the total
from the unrounded sum and each breakdown component independently; on
`(5, 3, 1, 0)` it yields breakdown `(2.5, 0.9, 0.1, 0)` and total 3.5. -/
theorem calculateFinalCredits_weights :
    (∀ c d r b : ℚ, calculateFinalCredits c d r b =
      ⟨round2 (c * 0.5 + d * 0.3 + r * 0.1 + b),
       ⟨round2 (c * 0.5), round2 (d * 0.3), round2 (r * 0.1), round2 b⟩⟩) ∧
    calculateFinalCredits 5 3 1 0 = ⟨3.5, ⟨2.5, 0.9, 0.1, 0⟩⟩ := by
  constructor
  · intro c d r b
    rfl
  · norm_num [calculateFinalCredits, round2, jsRound]

/-- C4: the end-to-end scenario — features (9, 9, 8), no annotations,
complete, not rejected, no title, all flags false — produces scores
(5, 1, 0, 0), breakdown (2.5, 0.3, 0, 0) and final credits 2.8. -/
theorem end_to_end_scenario :
    (assessBookConditionFlow pristineSample sampleContext).conditionScore = 5 ∧
    (assessBookConditionFlow pristineSample sampleContext).demandScore = 1 ∧
    (assessBookConditionFlow pristineSample sampleContext).rarityScore = 0 ∧
    (assessBookConditionFlow pristineSample sampleContext).bonusFactors = 0 ∧
    (assessBookConditionFlow pristineSample sampleContext).creditBreakdown =
      ⟨2.5, 0.3, 0, 0⟩ ∧
    (assessBookConditionFlow pristineSample sampleContext).finalCredits = 2.8 := by
  norm_num [assessBookConditionFlow, pristineSample, sampleContext,
    calculateConditionScore, calculateDemandScore, calculateRarityScore,
    calculateBonusFactors, calculateFinalCredits, round2, jsRound]

/-- C5: the demand score is 1 for an absent or empty title; otherwise 3
when the lower-cased title contains a curated well-known title
(case-insensitive substring match), as on the Harry Potter example; else 2
on a trending-genre keyword; else 1; it always lies in [0,3]. -/
theorem demandScore_contract :
    (∀ a : Option String, calculateDemandScore none a = 1) ∧
    (∀ a : Option String, calculateDemandScore (some "") a = 1) ∧
    (∀ (t : String) (a : Option String), calculateDemandScore (some t) a =
      (if t.data.isEmpty then 1
       else if popularBooks.any (fun book => strIncludes (lowerString t) book) then 3
       else if trendingGenres.any (fun genre => strIncludes (lowerString t) genre) then 2
       else 1)) ∧
    (∀ a : Option String,
      calculateDemandScore (some "Harry Potter and the Chamber of Secrets") a = 3) ∧
    (∀ a : Option String, calculateDemandScore (some "A Fantasy Tale") a = 2) ∧
    (∀ a : Option String, calculateDemandScore (some "An Ordinary Paperback") a = 1) ∧
    (∀ t a : Option String,
      0 ≤ calculateDemandScore t a ∧ calculateDemandScore t a ≤ 3) := by
  refine ⟨fun a => rfl, fun a => rfl, fun t a => rfl, fun a => rfl, fun a => rfl,
    fun a => rfl, fun t a => ?_⟩
  rcases t with _ | s
  · norm_num [calculateDemandScore]
  · simp only [calculateDemandScore]
    split_ifs <;> norm_num

/-- C6: the bonus total is additive with contributions 1 / 0.5 / 2 / 1
for the four flags, capped at 5; with all four flags true it is exactly
4.5 (under the cap); it always lies in [0,5]. -/
theorem bonusFactors_contract :
    (∀ i : BonusInput, calculateBonusFactors i =
      min 5 ((if i.isFirstTimeDonor then 1 else 0) + (if i.isThemeEvent then 0.5 else 0) +
        (if i.isNewBook then 2 else 0) + (if i.hasCraftMatch then (1 : ℚ) else 0))) ∧
    calculateBonusFactors ⟨true, true, true, true⟩ = 4.5 ∧
    (∀ i : BonusInput, 0 ≤ calculateBonusFactors i ∧ calculateBonusFactors i ≤ 5) := by
  refine ⟨fun i => rfl, by norm_num [calculateBonusFactors], fun i => ?_⟩
  refine ⟨bonusFactors_nonneg i, ?_⟩
  unfold calculateBonusFactors
  exact min_le_left _ _

/-- C7: the scoring engine is a total function (no validation or error
branch exists in the embedding, mirroring the source), and out-of-range
feature values are handled by applying the threshold comparisons
literally: any value above 10 satisfies every `≥` threshold and scores
exactly like the top in-range value (e.g. `coverCondition = 15`
contributes +1), while any negative value fails every threshold and
scores like the bottom one (contributing −1). -/
theorem literal_threshold_out_of_range :
    (∀ a : ConditionInput, 10 < a.coverCondition →
      calculateConditionScore a = calculateConditionScore { a with coverCondition := 9 }) ∧
    (∀ a : ConditionInput, a.coverCondition < 0 →
      calculateConditionScore a = calculateConditionScore { a with coverCondition := 0 }) ∧
    (∀ a : ConditionInput, 10 < a.spineCondition →
      calculateConditionScore a = calculateConditionScore { a with spineCondition := 9 }) ∧
    (∀ a : ConditionInput, a.spineCondition < 0 →
      calculateConditionScore a = calculateConditionScore { a with spineCondition := 0 }) ∧
    (∀ a : ConditionInput, 10 < a.pagesCondition →
      calculateConditionScore a = calculateConditionScore { a with pagesCondition := 8 }) ∧
    (∀ a : ConditionInput, a.pagesCondition < 0 →
      calculateConditionScore a = calculateConditionScore { a with pagesCondition := 0 }) ∧
    calculateConditionScore ⟨15, 9, 8, 5, 5, false, .sevNone⟩ = 5 ∧
    calculateConditionScore ⟨-3, 9, 7, 5, 5, false, .sevNone⟩ = 3 := by
  refine ⟨fun a h => ?_, fun a h => ?_, fun a h => ?_, fun a h => ?_, fun a h => ?_,
    fun a h => ?_, by norm_num [calculateConditionScore],
    by norm_num [calculateConditionScore]⟩
  · have e1 : (if a.coverCondition ≥ 9 then (1 : ℚ)
        else if a.coverCondition ≥ 7 then 0 else -1) = 1 := if_pos (by linarith)
    have e2 : (if (9 : ℚ) ≥ 9 then (1 : ℚ) else if (9 : ℚ) ≥ 7 then 0 else -1) = 1 := by
      norm_num
    simp only [calculateConditionScore, e1, e2]
  · have e1 : (if a.coverCondition ≥ 9 then (1 : ℚ)
        else if a.coverCondition ≥ 7 then 0 else -1) = -1 := by
      rw [if_neg (by linarith), if_neg (by linarith)]
    have e2 : (if (0 : ℚ) ≥ 9 then (1 : ℚ) else if (0 : ℚ) ≥ 7 then 0 else -1) = -1 := by
      norm_num
    simp only [calculateConditionScore, e1, e2]
  · have e1 : (if a.spineCondition ≥ 9 then (1 : ℚ)
        else if a.spineCondition ≥ 7 then 0 else -1) = 1 := if_pos (by linarith)
    have e2 : (if (9 : ℚ) ≥ 9 then (1 : ℚ) else if (9 : ℚ) ≥ 7 then 0 else -1) = 1 := by
      norm_num
    simp only [calculateConditionScore, e1, e2]
  · have e1 : (if a.spineCondition ≥ 9 then (1 : ℚ)
        else if a.spineCondition ≥ 7 then 0 else -1) = -1 := by
      rw [if_neg (by linarith), if_neg (by linarith)]
    have e2 : (if (0 : ℚ) ≥ 9 then (1 : ℚ) else if (0 : ℚ) ≥ 7 then 0 else -1) = -1 := by
      norm_num
    simp only [calculateConditionScore, e1, e2]
  · have e1 : (if a.pagesCondition ≥ 8 then (1 : ℚ) else -1) = 1 := if_pos (by linarith)
    have e2 : (if (8 : ℚ) ≥ 8 then (1 : ℚ) else -1) = 1 := by norm_num
    simp only [calculateConditionScore, e1, e2]
  · have e1 : (if a.pagesCondition ≥ 8 then (1 : ℚ) else -1) = -1 := if_neg (by linarith)
    have e2 : (if (0 : ℚ) ≥ 8 then (1 : ℚ) else -1) = -1 := by norm_num
    simp only [calculateConditionScore, e1, e2]

/-- Witness for C7: a cover value of 15 scores exactly like 9, and a
negative cover value scores exactly like 0. -/
theorem literal_threshold_out_of_range_witness :
    calculateConditionScore ⟨15, 9, 8, 5, 5, false, .sevNone⟩ =
      calculateConditionScore ⟨9, 9, 8, 5, 5, false, .sevNone⟩ ∧
    calculateConditionScore ⟨-3, 9, 7, 5, 5, false, .sevNone⟩ =
      calculateConditionScore ⟨0, 9, 7, 5, 5, false, .sevNone⟩ :=
  ⟨literal_threshold_out_of_range.1 ⟨15, 9, 8, 5, 5, false, .sevNone⟩ (by norm_num),
   literal_threshold_out_of_range.2.1 ⟨-3, 9, 7, 5, 5, false, .sevNone⟩ (by norm_num)⟩

/-- C8: the condition score — and hence the condition-score field and the
condition-credit component of the flow's output — does not depend on
`bindingIntegrity`, `cleanliness`, or the `hasAnnotations` flag;
`annotationSeverity` alone determines the annotation penalty. -/
theorem conditionScore_unused_fields :
    (∀ (a : ConditionInput) (b c : ℚ) (h : Bool),
      calculateConditionScore
        { a with bindingIntegrity := b, cleanliness := c, hasAnnotations := h } =
      calculateConditionScore a) ∧
    (∀ (o : VisualAssessment) (i : ContextualFactors) (b c : ℚ) (h : Bool),
      (assessBookConditionFlow
        { o with bindingIntegrity := b, cleanliness := c, hasAnnotations := h }
          i).conditionScore =
        (assessBookConditionFlow o i).conditionScore ∧
      (assessBookConditionFlow
        { o with bindingIntegrity := b, cleanliness := c, hasAnnotations := h }
          i).creditBreakdown.conditionCredits =
        (assessBookConditionFlow o i).creditBreakdown.conditionCredits) := by
  refine ⟨fun a b c h => rfl, fun o i b c h => ?_⟩
  cases hb : (o.shouldReject || !o.isComplete) with
  | true =>
    constructor <;> simp [assessBookConditionFlow, hb]
  | false =>
    constructor <;>
      simp [assessBookConditionFlow, hb, calculateConditionScore, calculateFinalCredits]

/-- C9: on every path — rejected or not — the output justification starts
with the provider's justification text unmodified, followed by exactly one
appended piece: the literal rejection suffix on the rejection path, or the
`CREDIT BREAKDOWN` block listing each component's score and credit
contribution plus the total (all taken from the returned assessment
itself) on the scoring path; the provider's text is never replaced or
truncated. -/
theorem justification_appended_only (o : VisualAssessment) (i : ContextualFactors) :
    (assessBookConditionFlow o i).justification =
      o.justification ++
        (if o.shouldReject || !o.isComplete then rejectionSuffix
         else
           breakdownBlock (assessBookConditionFlow o i).conditionScore
             (assessBookConditionFlow o i).demandScore
             (assessBookConditionFlow o i).rarityScore
             (assessBookConditionFlow o i).bonusFactors
             (assessBookConditionFlow o i).finalCredits
             (assessBookConditionFlow o i).creditBreakdown) := by
  unfold assessBookConditionFlow
  by_cases hb : (o.shouldReject || !o.isComplete) = true
  · rw [if_pos hb, if_pos hb]
  · rw [if_neg hb, if_neg hb]

/-- C10: the demand calculator never returns less than 1, so on the
non-rejected path the final credits are at least 0.3; consequently the
final credits equal 0 exactly when the book is rejected. -/
theorem finalCredits_zero_iff_rejected :
    (∀ t a : Option String, 1 ≤ calculateDemandScore t a) ∧
    (∀ (o : VisualAssessment) (i : ContextualFactors),
      (o.shouldReject = false → o.isComplete = true →
        1 ≤ (assessBookConditionFlow o i).demandScore ∧
        3/10 ≤ (assessBookConditionFlow o i).finalCredits) ∧
      ((assessBookConditionFlow o i).finalCredits = 0 ↔
        (o.shouldReject = true ∨ o.isComplete = false))) := by
  refine ⟨demandScore_ge_one, fun o i => ?_⟩
  cases hr : o.shouldReject with
  | true =>
    constructor
    · intro hfalse _
      simp [hr] at hfalse
    · simp [assessBookConditionFlow, hr]
  | false =>
    cases hc : o.isComplete with
    | false =>
      constructor
      · intro _ htrue
        simp [hc] at htrue
      · simp [assessBookConditionFlow, hr, hc]
    | true =>
      have hd := demandScore_ge_one i.bookTitle i.bookAuthor
      have hcond := conditionScore_nonneg
        ⟨o.coverCondition, o.spineCondition, o.pagesCondition, o.bindingIntegrity,
         o.cleanliness, o.hasAnnotations, o.annotationSeverity⟩
      have hbonus := bonusFactors_nonneg
        ⟨i.isFirstTimeDonor, i.isThemeEvent, i.isNewBook, i.hasCraftMatch⟩
      have hsum : (3 : ℚ)/10 ≤
          calculateConditionScore ⟨o.coverCondition, o.spineCondition, o.pagesCondition,
            o.bindingIntegrity, o.cleanliness, o.hasAnnotations,
            o.annotationSeverity⟩ * 0.5 +
          calculateDemandScore i.bookTitle i.bookAuthor * 0.3 +
          calculateRarityScore i.bookTitle i.bookAuthor * 0.1 +
          calculateBonusFactors
            ⟨i.isFirstTimeDonor, i.isThemeEvent, i.isNewBook, i.hasCraftMatch⟩ := by
        have hr0 : calculateRarityScore i.bookTitle i.bookAuthor = 0 := rfl
        rw [hr0]
        have h05 : (0 : ℚ) ≤ calculateConditionScore ⟨o.coverCondition, o.spineCondition,
            o.pagesCondition, o.bindingIntegrity, o.cleanliness, o.hasAnnotations,
            o.annotationSeverity⟩ * 0.5 := by positivity
        nlinarith [hd, hbonus]
      have hfinal := round2_mono hsum
      have h03 : round2 ((3 : ℚ)/10) = 3/10 := by norm_num [round2, jsRound]
      rw [h03] at hfinal
      constructor
      · intro _ _
        constructor
        · simpa [assessBookConditionFlow, hr, hc] using hd
        · simpa [assessBookConditionFlow, hr, hc, calculateFinalCredits] using hfinal
      · have hval : (assessBookConditionFlow o i).finalCredits =
            round2 (calculateConditionScore ⟨o.coverCondition, o.spineCondition,
              o.pagesCondition, o.bindingIntegrity, o.cleanliness, o.hasAnnotations,
              o.annotationSeverity⟩ * 0.5 +
            calculateDemandScore i.bookTitle i.bookAuthor * 0.3 +
            calculateRarityScore i.bookTitle i.bookAuthor * 0.1 +
            calculateBonusFactors
              ⟨i.isFirstTimeDonor, i.isThemeEvent, i.isNewBook, i.hasCraftMatch⟩) := by
          simp [assessBookConditionFlow, hr, hc, calculateFinalCredits]
        rw [hval]
        constructor
        · intro h0
          rw [h0] at hfinal
          exact absurd hfinal (by norm_num)
        · rintro (h | h) <;> simp at h

/-- Witness for C10: the non-rejected end-to-end sample has demand score
at least 1 and final credits at least 0.3. -/
theorem finalCredits_zero_iff_rejected_witness :
    1 ≤ (assessBookConditionFlow pristineSample sampleContext).demandScore ∧
    3/10 ≤ (assessBookConditionFlow pristineSample sampleContext).finalCredits :=
  (finalCredits_zero_iff_rejected.2 pristineSample sampleContext).1 rfl rfl

end StoriesStitches
